import Mathlib

/-!
Shallow embedding of `src/daily_financial_update.py`, a linear pipeline:
environment validation, news fetch over three fixed search queries,
Markdown content composition, and a single record-create call to a
document-database API, with the process exit code derived from the
boolean result of the orchestrator.

Strings are modelled as `List Char` (`Str`).  Network effects are
modelled by passing the responses of the outside world in as data: each
outbound request either raises a transport exception or yields a status
code with a parsed body (`HttpResult`).  Functions return, alongside
their results, the list of requests they issued and the console lines
they printed, so that call-count and logging claims are statable.
-/

/-- Strings are modelled as lists of characters. -/
abbrev Str := List Char

/-- Outcome of one outbound HTTP request: a transport exception (anything
raised inside the `try` block, including a JSON-parse failure) or a
response with a status code and a parsed body. -/
inductive HttpResult (α : Type) where
  | exn  (msg : Str)
  | resp (status : Nat) (body : α)
deriving DecidableEq

/-- The status code of a response, `none` for a transport exception. -/
def statusOf {α : Type} : HttpResult α → Option Nat
  | .exn _ => none
  | .resp status _ => some status

/-- Python truthiness of `os.environ.get(...)`: `None` and the empty
string are falsy, any non-empty string is truthy. -/
def truthy : Option Str → Bool
  | none => false
  | some s => !s.isEmpty

/-- The three configuration values read from the process environment. -/
structure Env where
  NOTION_API_KEY : Option Str
  NOTION_DATABASE_ID : Option Str
  SERPER_API_KEY : Option Str

/-- One organic search result as consumed by the script: a dict whose
`title` and `snippet` keys may each be absent (`item.get` with a default
is used by the composer). -/
structure SearchItem where
  title : Option Str
  snippet : Option Str
deriving DecidableEq

/-- The parsed JSON body of a search response; `organic = none` models a
response JSON with no `organic` field (the `in data` membership test of
the script is then false). -/
structure SearchResponse where
  organic : Option (List SearchItem)
deriving DecidableEq

/-- The three fixed query strings of `search_financial_news`, each
parameterized by the `%Y-%m-%d` date string of the current day. -/
def searchQueries (today : Str) : List Str :=
  [ "major financial news worldwide ".toList ++ today ++ " stock market".toList,
    "market movers stocks ".toList ++ today,
    "investment opportunities ".toList ++ today ++ " emerging markets".toList ]

/-- Console line printed when a search query raises an exception. -/
def serperErrorLine (msg : Str) : Str :=
  "Error searching with Serper: ".toList ++ msg

/-- Console line printed when no Serper key is configured. -/
def serperSkipLine (query : Str) : Str :=
  "No Serper API key found. Skipping search: ".toList ++ query

/-- Running state of the fetch loop: accumulated results (`all_results`),
console lines printed so far, and the number of search requests issued. -/
structure FetchState where
  results : List SearchItem
  log : List Str
  calls : Nat
deriving DecidableEq

/-- One iteration of the `for query in search_queries` loop.  With a
truthy provider key it issues one request; on status 200 with an
`organic` field it extends `all_results` with the first 3 entries; on a
non-200 status or a missing `organic` field it does nothing further; on
an exception it prints an error line.  Without a key it only prints a
skip notice. -/
def fetchQuery (keyTruthy : Bool) (query : Str) (r : HttpResult SearchResponse)
    (s : FetchState) : FetchState :=
  if keyTruthy then
    match r with
    | .resp status body =>
        if status = 200 then
          match body.organic with
          | some items =>
              { s with calls := s.calls + 1, results := s.results ++ items.take 3 }
          | none => { s with calls := s.calls + 1 }
        else { s with calls := s.calls + 1 }
    | .exn msg =>
        { s with calls := s.calls + 1, log := s.log ++ [serperErrorLine msg] }
  else
    { s with log := s.log ++ [serperSkipLine query] }

/-- The fetch loop over the remaining queries; `w i` is the response of
the world to the request for the query at position `i`. -/
def fetchGo (keyTruthy : Bool) (w : Nat → HttpResult SearchResponse) :
    List Str → Nat → FetchState → FetchState
  | [], _, s => s
  | q :: qs, i, s => fetchGo keyTruthy w qs (i + 1) (fetchQuery keyTruthy q (w i) s)

/-- `search_financial_news`: runs the three queries in order, starting
from an empty accumulator. -/
def search_financial_news (key : Option Str) (today : Str)
    (w : Nat → HttpResult SearchResponse) : FetchState :=
  fetchGo (truthy key) w (searchQueries today) 0 ⟨[], [], 0⟩

/-- The items one query contributes to `all_results`: the first 3 entries
of the `organic` array on status 200 (nothing if the field is absent),
nothing on any other status or on an exception. -/
def perQueryItems : HttpResult SearchResponse → List SearchItem
  | .resp status body => if status = 200 then (body.organic.getD []).take 3 else []
  | .exn _ => []

/-- The console lines one query contributes when a key is configured:
one error line on an exception, nothing otherwise (a non-200 status is
not logged by the code). -/
def perQueryErrLog : HttpResult SearchResponse → List Str
  | .exn msg => [serperErrorLine msg]
  | _ => []

/-- `analyze_market_data`: shape of the fixed template data. -/
structure MarketData where
  indices : List (Str × Str)
  top_movers : List Str
  sentiment : Str

/-- The placeholder market snapshot (`indices` empty, `top_movers` empty,
`sentiment` always `Mixed`). -/
def analyze_market_data : MarketData :=
  { indices := [], top_movers := [], sentiment := "Mixed".toList }

/-- One rendered news bullet: two asterisks, the title (defaulting to
`News Item`), a closing marker, and the snippet (defaulting to
`No description available`). -/
def bullet (item : SearchItem) : Str :=
  "**".toList ++ item.title.getD "News Item".toList
    ++ "**: ".toList ++ item.snippet.getD "No description available".toList

/-- The bullets the composer renders: one per item of the first 5. -/
def renderedBullets (news_results : List SearchItem) : List Str :=
  (news_results.take 5).map bullet

/-- The `join` method of Python strings: empty on an empty list,
otherwise the pieces with the separator interposed. -/
def joinSep (sep : Str) : List Str → Str
  | [] => []
  | [x] => x
  | x :: y :: xs => x ++ sep ++ joinSep sep (y :: xs)

/-- `news_summary`: the rendered bullets joined by blank lines. -/
def news_summary (news_results : List SearchItem) : Str :=
  joinSep "\n\n".toList (renderedBullets news_results)

/-- The explanatory sentence substituted when `news_summary` is falsy. -/
def fallbackSentence : Str :=
  "Unable to fetch current news. Please check API configurations.".toList

/-- The news section of the document: `news_summary` when truthy, the
fallback sentence otherwise. -/
def newsSection (news_results : List SearchItem) : Str :=
  if news_summary news_results = [] then fallbackSentence
  else news_summary news_results

/-- The static template text between the news section and the
interpolated count of news sources. -/
def staticMiddle : Str :=
  ("\n\n---\n\n## Investment Opportunities for Aggressive Growth (Week Ahead)\n\n### 🎯 HIGH-CONVICTION PLAYS\n\n**1. Technology Sector**\n- **Focus Areas**: AI infrastructure, semiconductors, cloud computing\n- **Catalyst**: Continued enterprise AI adoption\n- **Risk Level**: Medium-High\n\n**2. Emerging Markets**\n- **Focus Areas**: Latin American fintech, Asian e-commerce\n- **Catalyst**: Digital transformation in developing economies\n- **Risk Level**: High (currency and political risk)\n\n**3. Biotech/Healthcare**\n- **Focus Areas**: Gene therapy, precision medicine\n- **Catalyst**: FDA approvals pipeline, aging demographics\n- **Risk Level**: Very High (regulatory and clinical trial risk)\n\n---\n\n## 💰 Cash Deployment Strategy (Month-to-Month)\n\nFor aggressive growth with extra monthly cash flow:\n\n**40%** - Core Tech Positions\n- Dollar-cost average into established tech leaders\n- Focus on companies with strong cash flow and AI exposure\n\n**30%** - High-Growth Plays\n- Build positions in companies with 30%+ revenue growth\n- Look for market leaders in emerging categories\n\n**20%** - Sector Rotation/Opportunistic\n- Rotate based on weekly news and earnings\n- Consider undervalued sectors showing momentum\n\n**10%** - Speculative/High-Risk\n- Small cap stocks with breakthrough potential\n- Set strict stop-losses (15-20%)\n\n---\n\n## ⚠️ Risk Factors This Week\n\n- **Geopolitical Tensions**: Monitor international developments\n- **Interest Rate Environment**: Fed policy impacts valuations\n- **Valuation Concerns**: Growth stocks at premium multiples\n- **Market Momentum**: Watch for technical indicators\n\n---\n\n## 📅 Week Ahead Catalysts\n\n- Earnings season developments\n- Economic data releases (GDP, employment, inflation)\n- Sector-specific news and M&A activity\n- Global market correlations\n\n---\n\n**Disclaimer**: This is educational analysis based on current market data, not personalized financial advice. Markets are inherently risky, especially with aggressive growth strategies. Conduct your own research and consider consulting a licensed financial advisor before making investment decisions.\n\n**Data Sources**: ").toList

/-- `generate_investment_insights`: the composed Markdown document.
`today` is the `%B %d, %Y` date string and `now` the
`%Y-%m-%d %H:%M UTC` timestamp the script formats from the clock. -/
def generate_investment_insights (news_results : List SearchItem)
    (today now : Str) : Str :=
  "# Market Overview - ".toList ++ today
    ++ "\n\n## Key Financial Events Worldwide\n\n".toList
    ++ newsSection news_results
    ++ staticMiddle
    ++ (Nat.repr news_results.length).toList
    ++ " news sources analyzed\n**Generated**: ".toList
    ++ now
    ++ "\n".toList

/-- The parsed body of a record-create response; only the returned `url`
field is ever read. -/
abbrev NotionBody := Option Str

/-- The structured record payload `page_data` built by
`create_notion_page` (the fields interpolated into the JSON body). -/
structure NotionPayload where
  database_id : Str
  titleProp : Str
  dateProp : Str
  marketSentiment : Str
  keyEvents : Nat
  blockContent : Str
deriving DecidableEq

/-- Builds `page_data`: the title `Financial Intelligence - ` plus the
formatted date, the date of the day, the fixed `Mixed` select, the
constant number 5, and one paragraph block holding the first 2000
characters of the content. -/
def notionPayload (dbId content todayLong todayIso : Str) : NotionPayload :=
  { database_id := dbId,
    titleProp := "Financial Intelligence - ".toList ++ todayLong,
    dateProp := todayIso,
    marketSentiment := "Mixed".toList,
    keyEvents := 5,
    blockContent := content.take 2000 }

/-- Result of the publish step: the boolean return value and the list of
record-create requests issued. -/
structure PublishRun where
  success : Bool
  requests : List NotionPayload
deriving DecidableEq

/-- `create_notion_page`: issues exactly one create request and returns
true on status 200, false on any other status or on an exception. -/
def create_notion_page (dbId content todayLong todayIso : Str)
    (r : HttpResult NotionBody) : PublishRun :=
  let page_data := notionPayload dbId content todayLong todayIso
  match r with
  | .exn _ => { success := false, requests := [page_data] }
  | .resp status _ => { success := decide (status = 200), requests := [page_data] }

/-- The responses of the outside world for one run: `search i` answers
the search request number `i`, `notion` answers the record-create
request. -/
structure World where
  search : Nat → HttpResult SearchResponse
  notion : HttpResult NotionBody

/-- Observable outcome of `main`: its boolean return value, the number
of search requests issued, and the record-create requests issued. -/
structure MainRun where
  success : Bool
  searchCalls : Nat
  notionRequests : List NotionPayload
deriving DecidableEq

namespace Script

/-- `main`: validates the two required environment values (returning
false before any network activity if either is falsy), then runs fetch,
the market-data stub, compose, and publish in sequence, returning the
boolean of the publisher. `todayIso`, `todayLong` and `nowStamp` are the
`%Y-%m-%d`, `%B %d, %Y` and `%Y-%m-%d %H:%M UTC` renderings of the
current clock. -/
def main (env : Env) (todayIso todayLong nowStamp : Str) (w : World) : MainRun :=
  if truthy env.NOTION_API_KEY = false then
    { success := false, searchCalls := 0, notionRequests := [] }
  else if truthy env.NOTION_DATABASE_ID = false then
    { success := false, searchCalls := 0, notionRequests := [] }
  else
    let fetch := search_financial_news env.SERPER_API_KEY todayIso w.search
    let _market_data := analyze_market_data
    let content := generate_investment_insights fetch.results todayLong nowStamp
    let pub := create_notion_page (env.NOTION_DATABASE_ID.getD []) content
      todayLong todayIso w.notion
    { success := pub.success, searchCalls := fetch.calls, notionRequests := pub.requests }

end Script

/-- The `exit` call of the entry block: exit code 0 on success, 1 on
failure. -/
def exitCode (success : Bool) : Nat :=
  if success then 0 else 1

/-- Environment with the destination-database API key absent. -/
def envMissingKey : Env :=
  { NOTION_API_KEY := none, NOTION_DATABASE_ID := some ['d'], SERPER_API_KEY := none }

/-- Environment with both required values present. -/
def envAllSet : Env :=
  { NOTION_API_KEY := some ['k'], NOTION_DATABASE_ID := some ['d'],
    SERPER_API_KEY := none }

/-- A world that would answer every request successfully. -/
def worldAllOk : World :=
  { search := fun _ => .resp 200 { organic := some [] }, notion := .resp 200 none }

/-- The payload of the witness run for the constant-property claim. -/
def witnessPayload : NotionPayload :=
  notionPayload ['d'] (generate_investment_insights [] [] []) [] []

/-- A concrete search item for the fetcher scenarios. -/
def demoItem : SearchItem := { title := some ['t'], snippet := some ['s'] }

/-- A world where the first query gets HTTP 500 and the other two get
HTTP 200 with one organic result each. -/
def worldFirstQuery500 : Nat → HttpResult SearchResponse := fun i =>
  if i = 0 then .resp 500 { organic := some [demoItem] }
  else .resp 200 { organic := some [demoItem] }

/-- A world with one transport exception and two successes. -/
def worldSecondQueryExn : Nat → HttpResult SearchResponse := fun i =>
  if i = 1 then .exn ['e']
  else .resp 200 { organic := some [demoItem] }

/-- A world answering every query with status 200 and four organic
results. -/
def worldFourResults : Nat → HttpResult SearchResponse := fun _ =>
  .resp 200 { organic := some [demoItem, demoItem, demoItem, demoItem] }

/-- A world where the 200 response of the second query has no `organic`
field. -/
def worldSecondQueryNoOrganic : Nat → HttpResult SearchResponse := fun i =>
  if i = 1 then .resp 200 { organic := none }
  else .resp 200 { organic := some [demoItem] }

lemma fetchQuery_true_eq (query : Str) (r : HttpResult SearchResponse) (s : FetchState) :
    fetchQuery true query r s =
      { results := s.results ++ perQueryItems r,
        log := s.log ++ perQueryErrLog r,
        calls := s.calls + 1 } := by
  cases r with
  | exn msg => simp [fetchQuery, perQueryItems, perQueryErrLog]
  | resp status body =>
      by_cases h : status = 200
      · cases hb : body.organic with
        | none => simp [fetchQuery, perQueryItems, perQueryErrLog, h, hb]
        | some items => simp [fetchQuery, perQueryItems, perQueryErrLog, h, hb]
      · simp [fetchQuery, perQueryItems, perQueryErrLog, h]

lemma search_financial_news_eq (key : Option Str) (today : Str)
    (w : Nat → HttpResult SearchResponse) (hk : truthy key = true) :
    search_financial_news key today w =
      { results := perQueryItems (w 0) ++ perQueryItems (w 1) ++ perQueryItems (w 2),
        log := perQueryErrLog (w 0) ++ perQueryErrLog (w 1) ++ perQueryErrLog (w 2),
        calls := 3 } := by
  simp [search_financial_news, searchQueries, fetchGo, hk, fetchQuery_true_eq,
    List.append_assoc]

lemma news_summary_cons_head (x : SearchItem) (xs : List SearchItem) :
    ∃ t : Str, news_summary (x :: xs) = '*' :: t := by
  obtain ⟨r, hr⟩ : ∃ r : Str, bullet x = '*' :: r := ⟨_, rfl⟩
  have hrb : renderedBullets (x :: xs) = bullet x :: (xs.take 4).map bullet := by
    simp [renderedBullets]
  cases h4 : (xs.take 4).map bullet with
  | nil =>
      exact ⟨r, by simp [news_summary, hrb, h4, joinSep, hr]⟩
  | cons b bs =>
      exact ⟨r ++ "\n\n".toList ++ joinSep "\n\n".toList (b :: bs),
        by simp [news_summary, hrb, h4, joinSep, hr, List.append_assoc]⟩

/-- C1: if either required configuration value (the destination-database
API key or the destination-collection identifier) is absent from the
environment, `main` returns failure, the process exits with code 1, and
zero search requests and zero record-create requests are issued. -/
theorem missing_config_fails_without_network (env : Env)
    (todayIso todayLong nowStamp : Str) (w : World)
    (h : env.NOTION_API_KEY = none ∨ env.NOTION_DATABASE_ID = none) :
    (Script.main env todayIso todayLong nowStamp w).success = false ∧
    exitCode (Script.main env todayIso todayLong nowStamp w).success = 1 ∧
    (Script.main env todayIso todayLong nowStamp w).searchCalls = 0 ∧
    (Script.main env todayIso todayLong nowStamp w).notionRequests = [] := by
  rcases h with h | h
  · simp [Script.main, truthy, h, exitCode]
  · by_cases hk : truthy env.NOTION_API_KEY = false
    · simp [Script.main, hk, exitCode]
    · simp [Script.main, hk, truthy, h, exitCode]

/-- Witness for C1, at an environment missing the API key. -/
theorem missing_config_fails_without_network_witness :
    (Script.main envMissingKey [] [] [] worldAllOk).success = false ∧
    exitCode (Script.main envMissingKey [] [] [] worldAllOk).success = 1 ∧
    (Script.main envMissingKey [] [] [] worldAllOk).searchCalls = 0 ∧
    (Script.main envMissingKey [] [] [] worldAllOk).notionRequests = [] :=
  missing_config_fails_without_network envMissingKey [] [] [] worldAllOk (Or.inl rfl)

/-- C2: the transmitted content block is the slice of the document up to
position 2000: exactly the first 2000 characters when the document is
longer than 2000 characters, and the document unmodified when its length
is at most 2000. -/
theorem published_block_is_exact_truncation (dbId content todayLong todayIso : Str) :
    (2000 < content.length →
      (notionPayload dbId content todayLong todayIso).blockContent.length = 2000 ∧
      (notionPayload dbId content todayLong todayIso).blockContent <+: content) ∧
    (content.length ≤ 2000 →
      (notionPayload dbId content todayLong todayIso).blockContent = content) := by
  refine ⟨fun h => ⟨?_, ?_⟩, fun h => ?_⟩
  · simp [notionPayload]
    omega
  · simpa [notionPayload] using List.take_prefix 2000 content
  · simp [notionPayload, List.take_of_length_le h]

/-- Witness for C2, at a 2001-character document and a 1-character one. -/
theorem published_block_is_exact_truncation_witness :
    ((notionPayload [] (List.replicate 2001 'a') [] []).blockContent.length = 2000 ∧
      (notionPayload [] (List.replicate 2001 'a') [] []).blockContent
        <+: List.replicate 2001 'a') ∧
    (notionPayload [] ['a'] [] []).blockContent = ['a'] :=
  ⟨(published_block_is_exact_truncation [] (List.replicate 2001 'a') [] []).1
      (by rw [List.length_replicate]; omega),
   (published_block_is_exact_truncation [] ['a'] [] []).2 (by simp)⟩

/-- Counterexample to C3 as stated: with a configured key, a run whose
first query returns HTTP 500 prints nothing at all — the non-200 status
is not logged — even though that query fails and contributes no items
while the results of the other two queries are returned. -/
theorem non_200_status_not_logged :
    statusOf (worldFirstQuery500 0) = some 500 ∧
    (search_financial_news (some ['k']) [] worldFirstQuery500).log = [] ∧
    (search_financial_news (some ['k']) [] worldFirstQuery500).results
      = [demoItem, demoItem] := by
  refine ⟨rfl, rfl, rfl⟩

/-- C3 amended: with a configured key, no exception escapes the fetch
step (it is a total function of the three responses); a transport
exception is logged and skipped, while a non-200 status is silently
skipped without a log line; a failed query contributes no items, and the
returned sequence is exactly the contributions of the successful queries
in query order. -/
theorem fetch_failures_skipped_results_kept (key : Option Str) (today : Str)
    (w : Nat → HttpResult SearchResponse) (hk : truthy key = true) :
    (search_financial_news key today w).results
        = perQueryItems (w 0) ++ perQueryItems (w 1) ++ perQueryItems (w 2) ∧
    (search_financial_news key today w).log
        = perQueryErrLog (w 0) ++ perQueryErrLog (w 1) ++ perQueryErrLog (w 2) ∧
    (∀ msg, perQueryItems (HttpResult.exn msg) = []
        ∧ perQueryErrLog (HttpResult.exn msg) = [serperErrorLine msg]) ∧
    (∀ status body, status ≠ 200 →
      perQueryItems (HttpResult.resp status body) = []
        ∧ perQueryErrLog (HttpResult.resp status body) = []) := by
  refine ⟨?_, ?_, fun msg => ⟨rfl, rfl⟩, fun status body h => ⟨?_, rfl⟩⟩
  · rw [search_financial_news_eq key today w hk]
  · rw [search_financial_news_eq key today w hk]
  · simp [perQueryItems, h]

/-- Witness for the amended C3, at a run with a transport exception on
the second query. -/
theorem fetch_failures_skipped_results_kept_witness :
    (search_financial_news (some ['k']) [] worldSecondQueryExn).results
        = perQueryItems (worldSecondQueryExn 0) ++ perQueryItems (worldSecondQueryExn 1)
          ++ perQueryItems (worldSecondQueryExn 2) ∧
    (search_financial_news (some ['k']) [] worldSecondQueryExn).log
        = perQueryErrLog (worldSecondQueryExn 0) ++ perQueryErrLog (worldSecondQueryExn 1)
          ++ perQueryErrLog (worldSecondQueryExn 2) :=
  ⟨(fetch_failures_skipped_results_kept (some ['k']) [] worldSecondQueryExn rfl).1,
   (fetch_failures_skipped_results_kept (some ['k']) [] worldSecondQueryExn rfl).2.1⟩

/-- C4: the record-create call returns success exactly when the response
status is 200 (failure on any other status or transport exception), and
it issues at most one request. -/
theorem create_page_success_iff_status_200 (dbId content todayLong todayIso : Str)
    (r : HttpResult NotionBody) :
    (create_notion_page dbId content todayLong todayIso r).success
        = decide (statusOf r = some 200) ∧
    (create_notion_page dbId content todayLong todayIso r).requests.length ≤ 1 := by
  cases r with
  | exn msg => simp [create_notion_page, statusOf]
  | resp status body => simp [create_notion_page, statusOf, decide_eq_decide]

/-- C5: with both required configuration values present (truthy), the run
result is exactly the result of the publisher — success iff the
record-create response has status 200 — the exit code is its 0/1 image,
and the result does not depend on the search responses. -/
theorem run_success_equals_publish_success (env : Env)
    (todayIso todayLong nowStamp : Str) (w : World)
    (hk : truthy env.NOTION_API_KEY = true)
    (hd : truthy env.NOTION_DATABASE_ID = true) :
    (Script.main env todayIso todayLong nowStamp w).success
        = decide (statusOf w.notion = some 200) ∧
    exitCode (Script.main env todayIso todayLong nowStamp w).success
        = (if statusOf w.notion = some 200 then 0 else 1) ∧
    (∀ w' : World, w'.notion = w.notion →
      (Script.main env todayIso todayLong nowStamp w').success
        = (Script.main env todayIso todayLong nowStamp w).success) := by
  have key : ∀ w'' : World, (Script.main env todayIso todayLong nowStamp w'').success
      = decide (statusOf w''.notion = some 200) := by
    intro w''
    cases hw : w''.notion with
    | exn msg => simp [Script.main, hk, hd, create_notion_page, hw, statusOf]
    | resp status body =>
        simp [Script.main, hk, hd, create_notion_page, hw, statusOf, decide_eq_decide]
  refine ⟨key w, ?_, fun w' hww => ?_⟩
  · rw [key w]
    by_cases h : statusOf w.notion = some 200 <;> simp [exitCode, h]
  · rw [key w', key w, hww]

/-- Witness for C5, at a fully configured environment and a world whose
record-create response has status 200. -/
theorem run_success_equals_publish_success_witness :
    (Script.main envAllSet [] [] [] worldAllOk).success
        = decide (statusOf worldAllOk.notion = some 200) ∧
    exitCode (Script.main envAllSet [] [] [] worldAllOk).success
        = (if statusOf worldAllOk.notion = some 200 then 0 else 1) :=
  ⟨(run_success_equals_publish_success envAllSet [] [] [] worldAllOk rfl rfl).1,
   (run_success_equals_publish_success envAllSet [] [] [] worldAllOk rfl rfl).2.1⟩

/-- C6: the composer renders bullets for at most the first 5 news items
(exactly the minimum of 5 and the input length), and the joined bullet
list is what appears in the produced document. -/
theorem composer_renders_at_most_five_bullets (news_results : List SearchItem)
    (todayLong nowStamp : Str) :
    (renderedBullets news_results).length ≤ 5 ∧
    (renderedBullets news_results).length = min 5 news_results.length ∧
    news_summary news_results
      <:+: generate_investment_insights news_results todayLong nowStamp := by
  refine ⟨?_, ?_, ?_⟩
  · simp [renderedBullets]
  · simp [renderedBullets]
  · by_cases h : news_summary news_results = []
    · exact ⟨generate_investment_insights news_results todayLong nowStamp, [],
        by simp [h]⟩
    · refine ⟨"# Market Overview - ".toList ++ todayLong
          ++ "\n\n## Key Financial Events Worldwide\n\n".toList,
        staticMiddle ++ (Nat.repr news_results.length).toList
          ++ " news sources analyzed\n**Generated**: ".toList ++ nowStamp
          ++ "\n".toList, ?_⟩
      simp [generate_investment_insights, newsSection, h, List.append_assoc]

/-- C7: the news section of the composer is the fallback explanatory
sentence exactly when the news sequence is empty; any non-empty sequence
yields the joined bullet list instead, which never equals the fallback. -/
theorem fallback_exactly_when_no_news (news_results : List SearchItem) :
    newsSection news_results = fallbackSentence ↔ news_results = [] := by
  cases news_results with
  | nil => simp [newsSection, news_summary, renderedBullets, joinSep]
  | cons x xs =>
      obtain ⟨t, ht⟩ := news_summary_cons_head x xs
      have hne : news_summary (x :: xs) ≠ [] := by simp [ht]
      refine iff_of_false (fun h => ?_) (by simp)
      rw [newsSection, if_neg hne] at h
      have h2 := congrArg List.head? h
      rw [ht] at h2
      rw [show fallbackSentence.head? = some 'U' from rfl] at h2
      simp at h2

/-- C8: every record-create payload the run issues carries the fixed
select label `Mixed` and the constant number 5 in the key-event
property, whatever the environment, clock and fetched news. -/
theorem published_record_constants (env : Env) (todayIso todayLong nowStamp : Str)
    (w : World) (p : NotionPayload)
    (hp : p ∈ (Script.main env todayIso todayLong nowStamp w).notionRequests) :
    p.marketSentiment = "Mixed".toList ∧ p.keyEvents = 5 := by
  by_cases h1 : truthy env.NOTION_API_KEY = false
  · simp [Script.main, h1] at hp
  · by_cases h2 : truthy env.NOTION_DATABASE_ID = false
    · simp [Script.main, h1, h2] at hp
    · cases hw : w.notion with
      | exn msg =>
          simp [Script.main, h1, h2, create_notion_page, hw] at hp
          subst hp
          exact ⟨rfl, rfl⟩
      | resp status body =>
          simp [Script.main, h1, h2, create_notion_page, hw] at hp
          subst hp
          exact ⟨rfl, rfl⟩

/-- Witness for C8, at a fully configured environment with no search
key. -/
theorem published_record_constants_witness :
    witnessPayload.marketSentiment = "Mixed".toList ∧ witnessPayload.keyEvents = 5 :=
  published_record_constants envAllSet [] [] [] worldAllOk witnessPayload
    (by rw [show (Script.main envAllSet [] [] [] worldAllOk).notionRequests
          = [witnessPayload] from rfl]
        exact List.mem_singleton_self witnessPayload)

/-- C9: with a configured key, each query answered with status 200
contributes the first 3 organic entries (at most 3), and the returned
sequence is the per-query contributions concatenated in query order,
each preserving the result order of the provider. -/
theorem fetch_appends_top3_in_order (key : Option Str) (today : Str)
    (w : Nat → HttpResult SearchResponse) (hk : truthy key = true) :
    (search_financial_news key today w).results
        = perQueryItems (w 0) ++ perQueryItems (w 1) ++ perQueryItems (w 2) ∧
    (∀ body, perQueryItems (HttpResult.resp 200 body) = (body.organic.getD []).take 3) ∧
    (∀ r, (perQueryItems r).length ≤ 3) := by
  refine ⟨?_, fun body => by simp [perQueryItems], fun r => ?_⟩
  · rw [search_financial_news_eq key today w hk]
  · cases r with
    | exn msg => simp [perQueryItems]
    | resp status body =>
        by_cases h : status = 200 <;> simp [perQueryItems, h]

/-- Witness for C9: three successful queries with four provider results
each yield the three concatenated contributions, three items per query. -/
theorem fetch_appends_top3_in_order_witness :
    (search_financial_news (some ['k']) [] worldFourResults).results
        = perQueryItems (worldFourResults 0) ++ perQueryItems (worldFourResults 1)
          ++ perQueryItems (worldFourResults 2) ∧
    (perQueryItems (worldFourResults 0)).length ≤ 3 :=
  ⟨(fetch_appends_top3_in_order (some ['k']) [] worldFourResults rfl).1,
   (fetch_appends_top3_in_order (some ['k']) [] worldFourResults rfl).2.2
     (worldFourResults 0)⟩

/-- C10: a query answered with status 200 whose JSON has no `organic`
field contributes no items and no log line, and the run still issues all
three requests and returns the contributions of the other queries. -/
theorem missing_organic_field_skipped (key : Option Str) (today : Str)
    (w : Nat → HttpResult SearchResponse) (j : Nat)
    (hj : w j = HttpResult.resp 200 { organic := none })
    (hk : truthy key = true) :
    perQueryItems (w j) = [] ∧
    perQueryErrLog (w j) = [] ∧
    (search_financial_news key today w).calls = 3 ∧
    (search_financial_news key today w).results
        = perQueryItems (w 0) ++ perQueryItems (w 1) ++ perQueryItems (w 2) := by
  refine ⟨by simp [hj, perQueryItems], by simp [hj, perQueryErrLog], ?_, ?_⟩
  · rw [search_financial_news_eq key today w hk]
  · rw [search_financial_news_eq key today w hk]

/-- Witness for C10, at a run where the 200 response of the second query
lacks the `organic` field. -/
theorem missing_organic_field_skipped_witness :
    perQueryItems (worldSecondQueryNoOrganic 1) = [] ∧
    (search_financial_news (some ['k']) [] worldSecondQueryNoOrganic).calls = 3 :=
  ⟨(missing_organic_field_skipped (some ['k']) [] worldSecondQueryNoOrganic 1 rfl rfl).1,
   (missing_organic_field_skipped (some ['k']) [] worldSecondQueryNoOrganic 1 rfl rfl).2.2.1⟩
